import Mathlib

/-!
Verification of the Attribute Configuration Assistant (src/sw.js application
script) against its natural-language specification.  The JavaScript is shallowly
embedded: DOM reads become explicit structures (`FormState`), the mutable
`savedConfigs` array and the wizard step counter become explicit state values,
and `Date.now()` becomes an explicit `now : Nat` parameter.
-/

namespace Aveva

/-- One attribute of a template, as pushed by `collectTemplateData`
(`{ name, type, description }`). -/
structure Attribute where
  name : String
  type : String
  description : String
deriving DecidableEq, Repr

/-- The structure returned by `collectTemplateData`:
`{ name, category, description, attributes }`. -/
structure TemplateData where
  name : String
  category : String
  description : String
  attributes : List Attribute
deriving DecidableEq, Repr

/-- One `.attribute-row` of the form.  Each field models
`row.querySelector(...)?.value`: `none` when the input element is missing,
otherwise the (possibly empty) string value. -/
structure AttributeRow where
  name : Option String
  type : Option String
  description : Option String
deriving DecidableEq, Repr

/-- The DOM inputs read by `collectTemplateData`: the three top-level fields
(`templateName`, `templateCategory`, `templateDescription`, each
`document.getElementById(...)?.value`) and the list of attribute rows. -/
structure FormState where
  templateName : Option String
  templateCategory : Option String
  templateDescription : Option String
  attributeRows : List AttributeRow
deriving DecidableEq, Repr

/-- JavaScript truthiness of an optional string: `undefined` and `""` are
falsy, every other string is truthy. -/
def jsTruthy (o : Option String) : Bool :=
  match o with
  | none => false
  | some s => !s.isEmpty

/-- JavaScript `v || ''`: the string itself when truthy, `''` otherwise
(for string-or-undefined values this is `Option.getD _ ""`). -/
def jsOrEmpty (o : Option String) : String :=
  o.getD ""

/-- Function `collectTemplateData()` (src/sw.js:1530-1549): reads the three top-level
inputs with an `|| ''` default, then iterates the attribute rows, pushing
`{ name, type, description }` exactly when `name && type` is truthy.
The `forEach`/`push` loop is modelled as a `foldl` that appends.
A missing description input (`undefined`) is modelled as `""`. -/
def collectTemplateData (fs : FormState) : TemplateData :=
  let attributes := fs.attributeRows.foldl
    (fun acc row =>
      if jsTruthy row.name && jsTruthy row.type then
        acc ++ [⟨jsOrEmpty row.name, jsOrEmpty row.type, jsOrEmpty row.description⟩]
      else acc)
    []
  ⟨jsOrEmpty fs.templateName, jsOrEmpty fs.templateCategory,
    jsOrEmpty fs.templateDescription, attributes⟩

/-- The row → attribute translation that `collectTemplateData`'s loop performs:
`some` exactly for rows whose `name` and `type` are truthy. -/
def rowToAttribute (row : AttributeRow) : Option Attribute :=
  if jsTruthy row.name && jsTruthy row.type then
    some ⟨jsOrEmpty row.name, jsOrEmpty row.type, jsOrEmpty row.description⟩
  else none

/-- A toast notification: `showToast(message, type = 'info')`. -/
structure Toast where
  message : String
  severity : String
deriving DecidableEq, Repr

/-- One entry of the `savedConfigs` array as built by `saveTemplate`
(src/sw.js:1601-1609).  Note that the stored `attributes` field is the
*count* `templateData.attributes.length`, `lastModified` derives from the
clock (modelled as the raw timestamp), and `size` derives from the length of
`JSON.stringify(templateData)` (modelled as that character count; the code
formats it as a `KB` display string). -/
structure SavedConfig where
  id : String
  name : String
  category : String
  description : String
  attributes : Nat
  lastModified : Nat
  size : Nat
deriving DecidableEq, Repr

/-- Function `nextWizardStep()` (src/sw.js:1394-1399): increments only below 4. -/
def nextWizardStep (s : Nat) : Nat :=
  if s < 4 then s + 1 else s

/-- Function `previousWizardStep()` (src/sw.js:1401-1406): decrements only above 1. -/
def previousWizardStep (s : Nat) : Nat :=
  if s > 1 then s - 1 else s

/-- A click on one of the two wizard buttons. -/
inductive WizardOp where
  | next
  | prev
deriving DecidableEq, Repr

/-- One wizard button click applied to the step counter. -/
def applyWizardOp (s : Nat) (op : WizardOp) : Nat :=
  match op with
  | .next => nextWizardStep s
  | .prev => previousWizardStep s

/-- The wizard step after a sequence of clicks, starting from the
constructor's `this.currentWizardStep = 1` (src/sw.js:215). -/
def runWizard (ops : List WizardOp) : Nat :=
  ops.foldl applyWizardOp 1

/-- One validation result item `{ item, status }` with status one of the
strings `'success' | 'warning' | 'error'`. -/
structure VResult where
  item : String
  status : String
deriving DecidableEq, Repr

/-- The counting loop of `loadValidationData` (src/sw.js:1211-1215): a
`forEach` over all result items incrementing `critical` on `'error'` and
`warnings` on `'warning'`, starting from `0, 0`. -/
def countIssues (results : List VResult) : Nat × Nat :=
  results.foldl
    (fun acc r =>
      (if r.status = "error" then acc.1 + 1 else acc.1,
       if r.status = "warning" then acc.2 + 1 else acc.2))
    (0, 0)

/-- The score formula of `loadValidationData` (src/sw.js:1217):
`Math.max(0, 100 - critical * 20 - warnings * 5)`. -/
def validationScore (critical warnings : Nat) : Int :=
  max 0 (100 - (critical : Int) * 20 - (warnings : Int) * 5)

/-- The `namingResults` list of `loadValidationData` (src/sw.js:1177-1182). -/
def namingResults : List VResult :=
  [⟨"Template names follow PascalCase convention", "success"⟩,
   ⟨"Attribute names use camelCase pattern", "success"⟩,
   ⟨"No reserved words used in naming", "warning"⟩,
   ⟨"Consistent prefix/suffix usage", "success"⟩]

/-- The `bestPracticesResults` list of `loadValidationData` (src/sw.js:1184-1189). -/
def bestPracticesResults : List VResult :=
  [⟨"Quality attributes included", "warning"⟩,
   ⟨"Proper alarm thresholds defined", "success"⟩,
   ⟨"Engineering units specified", "success"⟩,
   ⟨"Historical data configuration complete", "success"⟩]

/-- The `securityResults` list of `loadValidationData` (src/sw.js:1191-1196). -/
def securityResults : List VResult :=
  [⟨"Security classifications defined", "success"⟩,
   ⟨"Access levels properly assigned", "success"⟩,
   ⟨"No exposed sensitive attributes", "success"⟩,
   ⟨"Audit trail configuration", "warning"⟩]

/-- The `performanceResults` list of `loadValidationData` (src/sw.js:1198-1203). -/
def performanceResults : List VResult :=
  [⟨"Data types optimized for performance", "success"⟩,
   ⟨"Update frequencies appropriately set", "success"⟩,
   ⟨"Database indexing considerations", "warning"⟩,
   ⟨"Memory usage within limits", "success"⟩]

/-- The spread `[...naming, ...bestPractices, ...security, ...performance]`
that the counting loop of `loadValidationData` runs over (src/sw.js:1212). -/
def allValidationResults : List VResult :=
  namingResults ++ bestPracticesResults ++ securityResults ++ performanceResults

/-! ## JSON serialization

`JSON.stringify(data, null, 2)` and `JSON.stringify(data)` restricted to the
record shape produced by `collectTemplateData`.  Strings are escaped exactly
as ECMA-262 `QuoteJSONString` does for Unicode scalar values: `"`, `\`, the
five short control escapes, `\u00xx` for the remaining control characters,
every other character verbatim. -/

/-- Lowercase hexadecimal digit character for `d < 16`
(`Number.prototype.toString(16)` digits). -/
def hexDigitChar (d : Nat) : Char :=
  if d < 10 then Char.ofNat (48 + d) else Char.ofNat (87 + d)

/-- JSON escaping of a single character, per `QuoteJSONString`. -/
def escapeChar (c : Char) : List Char :=
  if c = '\"' then ['\\', '\"']
  else if c = '\\' then ['\\', '\\']
  else if c = Char.ofNat 8 then ['\\', 'b']
  else if c = Char.ofNat 12 then ['\\', 'f']
  else if c = '\n' then ['\\', 'n']
  else if c = Char.ofNat 13 then ['\\', 'r']
  else if c = '\t' then ['\\', 't']
  else if c.toNat < 32 then
    ['\\', 'u', '0', '0', hexDigitChar (c.toNat / 16), hexDigitChar (c.toNat % 16)]
  else [c]

/-- JSON escaping of a character sequence. -/
def escapeList : List Char → List Char
  | [] => []
  | c :: cs => escapeChar c ++ escapeList cs

/-- A JSON string literal: quote, escaped content, quote. -/
def quoteString (l : List Char) : List Char :=
  '\"' :: (escapeList l ++ ['\"'])

/-- Literal chunk opening the indent-2 serialization: `{\n  "name": `. -/
def keyNameChunk : List Char := "\x7b\n  \"name\": ".data

/-- Literal chunk `,\n  "category": `. -/
def keyCategoryChunk : List Char := ",\n  \"category\": ".data

/-- Literal chunk `,\n  "description": `. -/
def keyDescriptionChunk : List Char := ",\n  \"description\": ".data

/-- Literal chunk `,\n  "attributes": `. -/
def keyAttributesChunk : List Char := ",\n  \"attributes\": ".data

/-- Literal chunk opening one attribute object at array indent:
`    {\n      "name": `. -/
def itemNameChunk : List Char := "    \x7b\n      \"name\": ".data

/-- Literal chunk `,\n      "type": `. -/
def itemTypeChunk : List Char := ",\n      \"type\": ".data

/-- Literal chunk `,\n      "description": `. -/
def itemDescriptionChunk : List Char := ",\n      \"description\": ".data

/-- Literal chunk closing one attribute object: `\n    }`. -/
def itemCloseChunk : List Char := "\n    \x7d".data

/-- Literal chunk closing the top-level object: `\n}`. -/
def topCloseChunk : List Char := "\n\x7d".data

/-- One attribute object in `JSON.stringify(·, null, 2)` layout (array items
at indent 4, keys at indent 6). -/
def attrItemJSON (a : Attribute) : List Char :=
  itemNameChunk ++ quoteString a.name.data ++
  itemTypeChunk ++ quoteString a.type.data ++
  itemDescriptionChunk ++ quoteString a.description.data ++
  itemCloseChunk

/-- A non-empty run of attribute objects separated by `,\n`. -/
def attrItemsJSON : Attribute → List Attribute → List Char
  | a, [] => attrItemJSON a
  | a, b :: rest => attrItemJSON a ++ (',' :: '\n' :: attrItemsJSON b rest)

/-- The `attributes` array in indent-2 layout: `[]` when empty, otherwise
`[\n` items `\n  ]` (the close bracket at indent 2). -/
def attrsJSON : List Attribute → List Char
  | [] => ['[', ']']
  | a :: rest => '[' :: '\n' :: (attrItemsJSON a rest ++ ('\n' :: ' ' :: ' ' :: ']' :: []))

/-- The `JSON.stringify(data, null, 2)` text of a collected record, as a character
sequence. -/
def toJSONList (td : TemplateData) : List Char :=
  keyNameChunk ++ quoteString td.name.data ++
  keyCategoryChunk ++ quoteString td.category.data ++
  keyDescriptionChunk ++ quoteString td.description.data ++
  keyAttributesChunk ++ attrsJSON td.attributes ++
  topCloseChunk

/-- The `JSON.stringify(data, null, 2)` text of a collected record. -/
def toJSON (td : TemplateData) : String :=
  String.mk (toJSONList td)

/-- One attribute object in compact `JSON.stringify(·)` layout. -/
def attrItemCompact (a : Attribute) : List Char :=
  "\x7b\"name\":".data ++ quoteString a.name.data ++
  ",\"type\":".data ++ quoteString a.type.data ++
  ",\"description\":".data ++ quoteString a.description.data ++
  "\x7d".data

/-- Compact comma-separated attribute objects. -/
def attrItemsCompact : Attribute → List Attribute → List Char
  | a, [] => attrItemCompact a
  | a, b :: rest => attrItemCompact a ++ (',' :: attrItemsCompact b rest)

/-- The compact `attributes` array. -/
def attrsCompact : List Attribute → List Char
  | [] => "[]".data
  | a :: rest => '[' :: (attrItemsCompact a rest ++ "]".data)

/-- The compact `JSON.stringify(templateData)` text (no indent), used by `saveTemplate` for
the `size` field; modelled as a character sequence. -/
def jsonCompactList (td : TemplateData) : List Char :=
  "\x7b\"name\":".data ++ quoteString td.name.data ++
  ",\"category\":".data ++ quoteString td.category.data ++
  ",\"description\":".data ++ quoteString td.description.data ++
  ",\"attributes\":".data ++ attrsCompact td.attributes ++
  "\x7d".data

/-! ## CSV serialization (the `csv` branch of `downloadExport`) -/

/-- One CSV row of the `csv` branch (src/sw.js:1573):
`"${attr.name}","${attr.type}","${attr.description}"\n` — the fields are
wrapped in double quotes with **no** escaping of embedded characters. -/
def csvRow (a : Attribute) : String :=
  "\"" ++ a.name ++ "\",\"" ++ a.type ++ "\",\"" ++ a.description ++ "\"\n"

/-- The CSV content of `downloadExport` (src/sw.js:1571-1574): the header
line then one row per attribute, accumulated by `forEach` with `+=`. -/
def csvContent (td : TemplateData) : String :=
  td.attributes.foldl (fun acc a => acc ++ csvRow a) "Name,Type,Description\n"

/-! ## Store operations -/

/-- The value of a JavaScript function call as seen by its caller: `none` is
`undefined` (no `return value;` was executed). -/
structure SaveResult where
  savedConfigs : List SavedConfig
  toast : Toast
  ret : Option String
deriving DecidableEq, Repr

/-- Function `saveTemplate()` (src/sw.js:1588-1614).  `configs` is the prior
`this.savedConfigs`, `now` is `Date.now()`.  Empty name or empty attribute
list short-circuits with an error toast and leaves the list untouched;
otherwise `{ id: template-<now>, ..., attributes: <count>, ... }` is
`unshift`ed onto the list.  Every path returns `undefined` (`ret = none`):
the function never returns the generated id. -/
def saveTemplate (configs : List SavedConfig) (fs : FormState) (now : Nat) :
    SaveResult :=
  let templateData := collectTemplateData fs
  if templateData.name = "" then
    ⟨configs, ⟨"Please enter a template name", "error"⟩, none⟩
  else if templateData.attributes.length = 0 then
    ⟨configs, ⟨"Please add at least one attribute", "error"⟩, none⟩
  else
    let newConfig : SavedConfig :=
      ⟨"template-" ++ toString now, templateData.name, templateData.category,
        templateData.description, templateData.attributes.length, now,
        (jsonCompactList templateData).length⟩
    ⟨newConfig :: configs,
      ⟨"Template \"" ++ templateData.name ++ "\" saved successfully", "info"⟩,
      none⟩

/-- Function `filterSavedConfigs(searchTerm)` (src/sw.js:2306-2308).  The body is
`console.log('Filtering saved configs:', searchTerm);` and nothing else: it
computes no record sequence and returns `undefined` (modelled as `none`),
regardless of the saved configurations or the search term. -/
def filterSavedConfigs (configs : List SavedConfig) (searchTerm : String) :
    Option (List SavedConfig) :=
  none

/-! ## Export dispatch (`downloadExport`, src/sw.js:1557-1586) -/

/-- The `content`/`filename`/`type` triple handed to `downloadFile`. -/
structure ExportFile where
  content : String
  filename : String
  mime : String
deriving DecidableEq, Repr

/-- The `data.name || 'template'` base used to build the export filename. -/
def exportBaseName (td : TemplateData) : String :=
  if td.name = "" then "template" else td.name

/-- Function `downloadExport()` (src/sw.js:1557-1586): collects the form data, then
switches on the chosen format.  `json` emits `JSON.stringify(data, null, 2)`;
`csv` emits the header-plus-rows text; the `default` branch — taken for the
`xml` choice — emits `JSON.stringify(data, null, 2)` again, merely under an
`.xml` filename and `application/xml` mime type. -/
def downloadExport (fs : FormState) (format : String) : ExportFile :=
  let data := collectTemplateData fs
  if format = "json" then
    ⟨toJSON data, exportBaseName data ++ ".json", "application/json"⟩
  else if format = "csv" then
    ⟨csvContent data, exportBaseName data ++ ".csv", "text/csv"⟩
  else
    ⟨toJSON data, exportBaseName data ++ ".xml", "application/xml"⟩

/-! ## JSON parsing

Modelled from the spec: the repository's import surface (`importData`,
src/sw.js:2236-2238) is a notification stub and implements no parsing, while
§4.4 and §8 of the specification require a `fromJSON` that "round-trips
losslessly back to the same structural record" and an import surface that
rejects malformed input.  `fromJSON` below parses exactly the
`JSON.stringify(data, null, 2)` layout that `toJSON` emits, returning `none`
on any other input. -/

/-- Consume an expected literal chunk from the front of the input. -/
def parseLit : List Char → List Char → Option (List Char)
  | [], l => some l
  | _ :: _, [] => none
  | p :: ps, c :: cs => if c = p then parseLit ps cs else none

/-- Value of one hexadecimal digit character (either case). -/
def hexVal (c : Char) : Option Nat :=
  if 48 ≤ c.toNat ∧ c.toNat ≤ 57 then some (c.toNat - 48)
  else if 97 ≤ c.toNat ∧ c.toNat ≤ 102 then some (c.toNat - 87)
  else if 65 ≤ c.toNat ∧ c.toNat ≤ 70 then some (c.toNat - 55)
  else none

/-- The single-character JSON escapes `\" \\ \/ \b \f \n \r \t`. -/
def simpleEscape (e : Char) : Option Char :=
  if e = '\"' then some '\"'
  else if e = '\\' then some '\\'
  else if e = '/' then some '/'
  else if e = 'b' then some (Char.ofNat 8)
  else if e = 'f' then some (Char.ofNat 12)
  else if e = 'n' then some '\n'
  else if e = 'r' then some (Char.ofNat 13)
  else if e = 't' then some '\t'
  else none

/-- Parse the body of a JSON string literal (the opening quote already
consumed) up to its closing quote, undoing the escapes; returns the decoded
characters and the remaining input. -/
def parseStringBody : List Char → Option (List Char × List Char)
  | [] => none
  | c :: rest =>
    if c = '\"' then some ([], rest)
    else if c = '\\' then
      match rest with
      | [] => none
      | e :: rest2 =>
        if e = 'u' then
          match rest2 with
          | h1 :: h2 :: h3 :: h4 :: rest3 =>
            match hexVal h1, hexVal h2, hexVal h3, hexVal h4 with
            | some d1, some d2, some d3, some d4 =>
              (parseStringBody rest3).map
                (fun pr =>
                  (Char.ofNat (((d1 * 16 + d2) * 16 + d3) * 16 + d4) :: pr.1,
                   pr.2))
            | _, _, _, _ => none
          | _ => none
        else
          match simpleEscape e with
          | some c2 =>
            (parseStringBody rest2).map (fun pr => (c2 :: pr.1, pr.2))
          | none => none
    else (parseStringBody rest).map (fun pr => (c :: pr.1, pr.2))

/-- Parse a complete JSON string literal, opening quote included. -/
def parseJString : List Char → Option (List Char × List Char)
  | '\"' :: rest => parseStringBody rest
  | _ => none

/-- Parse one attribute object in the indent-2 layout. -/
def parseAttrItem (l : List Char) : Option (Attribute × List Char) :=
  (parseLit itemNameChunk l).bind fun l1 =>
  (parseJString l1).bind fun pn =>
  (parseLit itemTypeChunk pn.2).bind fun l2 =>
  (parseJString l2).bind fun pt =>
  (parseLit itemDescriptionChunk pt.2).bind fun l3 =>
  (parseJString l3).bind fun pd =>
  (parseLit itemCloseChunk pd.2).map fun l4 =>
  (⟨String.mk pn.1, String.mk pt.1, String.mk pd.1⟩, l4)

/-- Parse a non-empty `,\n`-separated run of attribute objects terminated by
the array close `\n  ]`.  `fuel` bounds the recursion depth; one unit is
spent per parsed item. -/
def parseAttrItems : Nat → List Char → Option (List Attribute × List Char)
  | 0, _ => none
  | fuel + 1, l =>
    (parseAttrItem l).bind fun pr =>
      match pr.2 with
      | ',' :: '\n' :: rest2 =>
        (parseAttrItems fuel rest2).map (fun qr => (pr.1 :: qr.1, qr.2))
      | '\n' :: ' ' :: ' ' :: ']' :: rest2 => some ([pr.1], rest2)
      | _ => none

/-- Parse the `attributes` array: `[]` or `[\n` items `\n  ]`. -/
def parseAttrs : List Char → Option (List Attribute × List Char)
  | '[' :: ']' :: rest => some ([], rest)
  | '[' :: '\n' :: rest => parseAttrItems (rest.length + 1) rest
  | _ => none

/-- Parse the full indent-2 serialization of a collected record. -/
def fromJSONList (l : List Char) : Option TemplateData :=
  (parseLit keyNameChunk l).bind fun l1 =>
  (parseJString l1).bind fun pn =>
  (parseLit keyCategoryChunk pn.2).bind fun l2 =>
  (parseJString l2).bind fun pc =>
  (parseLit keyDescriptionChunk pc.2).bind fun l3 =>
  (parseJString l3).bind fun pd =>
  (parseLit keyAttributesChunk pd.2).bind fun l4 =>
  (parseAttrs l4).bind fun pa =>
  if pa.2 = topCloseChunk then
    some ⟨String.mk pn.1, String.mk pc.1, String.mk pd.1, pa.1⟩
  else none

/-- Modelled from the spec: `fromJSON` — parse the JSON export text back
into a structural record, rejecting anything malformed. -/
def fromJSON (s : String) : Option TemplateData :=
  fromJSONList s.data

/-! ## Reference data catalog (src/sw.js:2083-2130) -/

/-- One entry of the reference-data table:
`{ name, type, category, description }`. -/
structure RefEntry where
  name : String
  type : String
  category : String
  description : String
deriving DecidableEq, Repr

/-- The hardcoded `allData` table of `getReferenceDataByFilter`
(src/sw.js:2084-2123), in declaration order. -/
def allData : List RefEntry :=
  [⟨"AI_INT", "analog", "Analog I/O", "Analog Input Integer - 16-bit signed integer for analog inputs"⟩,
   ⟨"AI_REAL", "analog", "Analog I/O", "Analog Input Real - 32-bit floating point for precision measurements"⟩,
   ⟨"AO_INT", "analog", "Analog I/O", "Analog Output Integer - 16-bit signed integer for analog outputs"⟩,
   ⟨"AO_REAL", "analog", "Analog I/O", "Analog Output Real - 32-bit floating point for precise control"⟩,
   ⟨"AI_LREAL", "analog", "Analog I/O", "Analog Input Long Real - 64-bit floating point for high precision"⟩,
   ⟨"AO_LREAL", "analog", "Analog I/O", "Analog Output Long Real - 64-bit floating point for precise control"⟩,
   ⟨"DI", "digital", "Digital I/O", "Digital Input - Boolean input for on/off states"⟩,
   ⟨"DO", "digital", "Digital I/O", "Digital Output - Boolean output for control signals"⟩,
   ⟨"DI_WORD", "digital", "Digital I/O", "Digital Input Word - 16-bit digital input register"⟩,
   ⟨"DO_WORD", "digital", "Digital I/O", "Digital Output Word - 16-bit digital output register"⟩,
   ⟨"DI_DWORD", "digital", "Digital I/O", "Digital Input Double Word - 32-bit digital input register"⟩,
   ⟨"DO_DWORD", "digital", "Digital I/O", "Digital Output Double Word - 32-bit digital output register"⟩,
   ⟨"STRING", "string", "String", "String - Variable length character string"⟩,
   ⟨"STRING_80", "string", "String", "String 80 - Fixed 80 character string"⟩,
   ⟨"STRING_256", "string", "String", "String 256 - Fixed 256 character string"⟩,
   ⟨"WSTRING", "string", "String", "Wide String - Unicode string support"⟩,
   ⟨"STRING_REF", "string", "String", "String Reference - Pointer to string data"⟩,
   ⟨"TIME", "system", "System", "Time - System timestamp"⟩,
   ⟨"DATE", "system", "System", "Date - System date"⟩,
   ⟨"DT", "system", "System", "DateTime - Combined date and time"⟩,
   ⟨"TOD", "system", "System", "Time of Day - Time without date"⟩,
   ⟨"REAL", "system", "System", "Real - 32-bit floating point number"⟩,
   ⟨"LREAL", "system", "System", "Long Real - 64-bit floating point number"⟩,
   ⟨"INT", "system", "System", "Integer - 16-bit signed integer"⟩,
   ⟨"DINT", "system", "System", "Double Integer - 32-bit signed integer"⟩,
   ⟨"UDINT", "system", "System", "Unsigned Double Integer - 32-bit unsigned integer"⟩,
   ⟨"SINT", "system", "System", "Short Integer - 8-bit signed integer"⟩,
   ⟨"USINT", "system", "System", "Unsigned Short Integer - 8-bit unsigned integer"⟩,
   ⟨"BYTE", "system", "System", "Byte - 8-bit binary data"⟩,
   ⟨"WORD", "system", "System", "Word - 16-bit binary data"⟩,
   ⟨"DWORD", "system", "System", "Double Word - 32-bit binary data"⟩]

/-- Function `getReferenceDataByFilter(filterType)` (src/sw.js:2125-2129): the whole
table for `'all'`, otherwise the entries whose `type` equals the filter. -/
def getReferenceDataByFilter (filterType : String) : List RefEntry :=
  if filterType = "all" then allData
  else allData.filter (fun item => item.type = filterType)

/-- ASCII lowercasing of one character (`String.prototype.toLowerCase`
restricted to the ASCII range, which covers the whole catalog). -/
def lowerChar (c : Char) : Char :=
  if 65 ≤ c.toNat ∧ c.toNat ≤ 90 then Char.ofNat (c.toNat + 32) else c

/-- Lowercase a character sequence. -/
def lowerList (l : List Char) : List Char :=
  l.map lowerChar

/-- Does `l` start with `p`? -/
def startsWithList : List Char → List Char → Bool
  | _, [] => true
  | [], _ :: _ => false
  | c :: cs, p :: ps => c = p && startsWithList cs ps

/-- JavaScript `String.prototype.includes`: does `p` occur as a contiguous substring
of `l`? -/
def containsSubList : List Char → List Char → Bool
  | [], p => startsWithList [] p
  | c :: cs, p => startsWithList (c :: cs) p || containsSubList cs p

/-- The test `a.toLowerCase().includes(b.toLowerCase())`. -/
def containsCI (a b : String) : Bool :=
  containsSubList (lowerList a.data) (lowerList b.data)

/-- The search predicate of `displayFilteredData` (src/sw.js:2054-2058):
case-insensitive substring match of the search term against `name`,
`description` and `category`. -/
def matchesSearch (item : RefEntry) (searchTerm : String) : Bool :=
  containsCI item.name searchTerm || containsCI item.description searchTerm ||
    containsCI item.category searchTerm

/-- The data computed by `displayFilteredData(filterType, searchTerm)`
(src/sw.js:2044-2059) before rendering: the filter-tab selection via
`getReferenceDataByFilter`, then — only when `searchTerm` is truthy — the
search filter. -/
def displayFilteredData (filterType : String) (searchTerm : String) :
    List RefEntry :=
  let referenceData := getReferenceDataByFilter filterType
  if searchTerm = "" then referenceData
  else referenceData.filter (fun item => matchesSearch item searchTerm)

/-- Modelled from the spec: `Store.find(searchText)` — "case-insensitive
substring match over name/description/category" of the saved records.  The
code's `filterSavedConfigs` implements no such search (its body only logs),
so the spec's contract is embedded here for comparison. -/
def specStoreFind (configs : List SavedConfig) (searchText : String) :
    List SavedConfig :=
  configs.filter (fun c =>
    containsCI c.name searchText || containsCI c.description searchText ||
      containsCI c.category searchText)

/-! ## Auxiliary notions used by the theorems -/

/-- Number of lines of an export text.  Every line the CSV writer emits is
`\n`-terminated, so the line count is the number of `\n` characters. -/
def countLines (s : String) : Nat :=
  s.data.count '\n'

/-- Modelled from the spec: proper CSV double-quote escaping of one field —
an embedded `"` is doubled inside the quoted field. -/
def csvEscapeField (s : String) : String :=
  String.mk (s.data.foldr (fun c acc => if c = '\"' then '\"' :: '\"' :: acc else c :: acc) [])

/-- Modelled from the spec: one CSV row with properly escaped fields. -/
def specCsvRow (a : Attribute) : String :=
  "\"" ++ csvEscapeField a.name ++ "\",\"" ++ csvEscapeField a.type ++ "\",\"" ++
    csvEscapeField a.description ++ "\"\n"

/-- Modelled from the spec: the CSV serialization with double-quote-escaped
fields, for comparison with the code's `csvContent`. -/
def specToCSV (td : TemplateData) : String :=
  td.attributes.foldl (fun acc a => acc ++ specCsvRow a) "Name,Type,Description\n"

/-! ## Concrete fixtures for witnesses and counterexamples -/

/-- An entirely empty form: no inputs present, no attribute rows. -/
def emptyForm : FormState :=
  ⟨none, none, none, []⟩

/-- A form with a name but only a half-filled attribute row (type missing),
so the collected attribute list is empty. -/
def nameOnlyForm : FormState :=
  ⟨some "PumpA", none, none, [⟨some "Flow", none, some "orphan row"⟩]⟩

/-- The spec's example form: name `PumpA`, one complete attribute row
`Flow / AI_REAL / ""`. -/
def pumpAForm : FormState :=
  ⟨some "PumpA", none, none, [⟨some "Flow", some "AI_REAL", some ""⟩]⟩

/-- An arbitrary pre-existing saved configuration. -/
def sampleConfig : SavedConfig :=
  ⟨"template-1", "Existing", "process", "kept", 2, 1, 10⟩

/-- A saved configuration whose id was generated at clock value 5. -/
def dupConfig : SavedConfig :=
  ⟨"template-5", "Old", "", "", 1, 5, 64⟩

/-- A record with one attribute whose name embeds a double quote. -/
def quoteRecord : TemplateData :=
  ⟨"R", "", "", [⟨"a\"b", "T", "D"⟩]⟩

/-- A record with one attribute whose description embeds a newline. -/
def newlineRecord : TemplateData :=
  ⟨"R", "", "", [⟨"Flow", "AI_REAL", "x\ny"⟩]⟩

/-- The collected `PumpA` record. -/
def pumpARecord : TemplateData :=
  ⟨"PumpA", "", "", [⟨"Flow", "AI_REAL", ""⟩]⟩

/-- The `DI` catalog entry. -/
def diEntry : RefEntry :=
  ⟨"DI", "digital", "Digital I/O", "Digital Input - Boolean input for on/off states"⟩

/-! # Theorems -/

/-! ## Helper lemmas -/

theorem collect_foldl (rows : List AttributeRow) :
    ∀ acc : List Attribute,
      rows.foldl
        (fun acc row =>
          if jsTruthy row.name && jsTruthy row.type then
            acc ++ [⟨jsOrEmpty row.name, jsOrEmpty row.type, jsOrEmpty row.description⟩]
          else acc) acc
      = acc ++ rows.filterMap rowToAttribute := by
  induction rows with
  | nil => intro acc; simp
  | cons r rs ih =>
    intro acc
    simp only [List.foldl_cons, List.filterMap_cons]
    by_cases h : jsTruthy r.name && jsTruthy r.type
    · rw [if_pos h, ih]
      simp [rowToAttribute, h]
    · rw [if_neg h, ih]
      simp [rowToAttribute, h]

theorem collectTemplateData_eq (fs : FormState) :
    collectTemplateData fs =
      ⟨jsOrEmpty fs.templateName, jsOrEmpty fs.templateCategory,
        jsOrEmpty fs.templateDescription, fs.attributeRows.filterMap rowToAttribute⟩ := by
  unfold collectTemplateData
  rw [collect_foldl]
  simp

theorem filterMap_rows_length (rows : List AttributeRow) :
    (rows.filterMap rowToAttribute).length =
      (rows.filter (fun r => jsTruthy r.name && jsTruthy r.type)).length := by
  induction rows with
  | nil => rfl
  | cons r rs ih =>
    by_cases h : jsTruthy r.name && jsTruthy r.type
    · simp [rowToAttribute, h, ih]
    · simp [rowToAttribute, h, ih]

theorem wizard_step_bounds (s : Nat) (op : WizardOp) (h1 : 1 ≤ s) (h4 : s ≤ 4) :
    1 ≤ applyWizardOp s op ∧ applyWizardOp s op ≤ 4 := by
  cases op with
  | next =>
    simp only [applyWizardOp, nextWizardStep]
    split_ifs <;> omega
  | prev =>
    simp only [applyWizardOp, previousWizardStep]
    split_ifs <;> omega

theorem runWizard_go (ops : List WizardOp) :
    ∀ s : Nat, 1 ≤ s → s ≤ 4 →
      1 ≤ ops.foldl applyWizardOp s ∧ ops.foldl applyWizardOp s ≤ 4 := by
  induction ops with
  | nil => intro s h1 h4; exact ⟨h1, h4⟩
  | cons op rest ih =>
    intro s h1 h4
    rw [List.foldl_cons]
    exact ih _ (wizard_step_bounds s op h1 h4).1 (wizard_step_bounds s op h1 h4).2

theorem countIssues_go (results : List VResult) :
    ∀ a b : Nat,
      results.foldl
        (fun acc r =>
          (if r.status = "error" then acc.1 + 1 else acc.1,
           if r.status = "warning" then acc.2 + 1 else acc.2)) (a, b)
      = (a + results.countP (fun r => r.status = "error"),
         b + results.countP (fun r => r.status = "warning")) := by
  induction results with
  | nil => intro a b; simp
  | cons r rs ih =>
    intro a b
    rw [List.foldl_cons, ih]
    by_cases h1 : r.status = "error"
    · have h2 : ¬(r.status = "warning") := by rw [h1]; decide
      simp [h1, h2, List.countP_cons, Prod.mk.injEq]
      omega
    · by_cases h2 : r.status = "warning" <;>
        simp [h1, h2, List.countP_cons, Prod.mk.injEq] <;> omega

theorem countIssues_eq_countP (results : List VResult) :
    countIssues results =
      (results.countP (fun r => r.status = "error"),
       results.countP (fun r => r.status = "warning")) := by
  unfold countIssues
  rw [countIssues_go]
  simp

theorem validationScore_mono {c c' w w' : Nat} (hc : c ≤ c') (hw : w ≤ w') :
    validationScore c' w' ≤ validationScore c w := by
  unfold validationScore
  apply max_le_max le_rfl
  have hc2 : (c : Int) ≤ (c' : Int) := by exact_mod_cast hc
  have hw2 : (w : Int) ≤ (w' : Int) := by exact_mod_cast hw
  omega

/-! ## Claim theorems -/

/-- C1: for every record whose collected name is empty or whose collected
attribute list is empty, `saveTemplate` shows a blocking `'error'` toast and
leaves `savedConfigs` completely unchanged. -/
theorem c1_save_rejects_and_leaves_store_unchanged
    (configs : List SavedConfig) (fs : FormState) (now : Nat)
    (h : (collectTemplateData fs).name = "" ∨ (collectTemplateData fs).attributes = []) :
    (saveTemplate configs fs now).savedConfigs = configs ∧
    (saveTemplate configs fs now).toast.severity = "error" := by
  unfold saveTemplate
  rcases h with h | h
  · simp [h]
  · by_cases hn : (collectTemplateData fs).name = ""
    · simp [hn]
    · simp [hn, h]

/-- Witness for C1: a form with a name but only a half-filled attribute row
collects an empty attribute list; saving leaves the one-element store
unchanged and raises an `'error'` toast. -/
theorem c1_save_rejects_witness :
    ((collectTemplateData nameOnlyForm).name = "" ∨
      (collectTemplateData nameOnlyForm).attributes = []) ∧
    ((saveTemplate [sampleConfig] nameOnlyForm 7).savedConfigs = [sampleConfig] ∧
      (saveTemplate [sampleConfig] nameOnlyForm 7).toast.severity = "error") :=
  ⟨Or.inr (by decide),
    c1_save_rejects_and_leaves_store_unchanged [sampleConfig] nameOnlyForm 7
      (Or.inr (by decide))⟩

/-- C9: `collectTemplateData` is total and returns the three top-level inputs
with empty-string defaults when absent, together with exactly one attribute
per row whose name and type are both non-empty (truthy); half-filled rows
are silently excluded. -/
theorem c9_collect_characterization (fs : FormState) :
    collectTemplateData fs =
      ⟨jsOrEmpty fs.templateName, jsOrEmpty fs.templateCategory,
        jsOrEmpty fs.templateDescription, fs.attributeRows.filterMap rowToAttribute⟩ ∧
    (collectTemplateData fs).attributes.length =
      (fs.attributeRows.filter (fun r => jsTruthy r.name && jsTruthy r.type)).length ∧
    collectTemplateData emptyForm = ⟨"", "", "", []⟩ := by
  refine ⟨collectTemplateData_eq fs, ?_, by decide⟩
  rw [collectTemplateData_eq fs]
  exact filterMap_rows_length fs.attributeRows

/-- C10: starting from the constructor's step 1, any sequence of
next/previous clicks keeps the wizard step inside `[1, 4]`; `next` at 4 and
`previous` at 1 are no-ops. -/
theorem c10_wizard_step_invariant :
    runWizard [] = 1 ∧
    (∀ ops : List WizardOp, 1 ≤ runWizard ops ∧ runWizard ops ≤ 4) ∧
    nextWizardStep 4 = 4 ∧ previousWizardStep 1 = 1 :=
  ⟨rfl, fun ops => runWizard_go ops 1 le_rfl (by omega), rfl, rfl⟩

/-- C6: the validation score is `max(0, 100 - 20*errorCount -
5*warningCount)` over the counted findings, always lies in `[0, 100]`, and
is non-increasing as findings are appended; on the hardcoded validation data
(4 warnings, 0 errors) it evaluates to 80. -/
theorem c6_validation_score_formula :
    (∀ results : List VResult,
        countIssues results =
          (results.countP (fun r => r.status = "error"),
           results.countP (fun r => r.status = "warning"))) ∧
    (∀ critical warnings : Nat,
        0 ≤ validationScore critical warnings ∧
        validationScore critical warnings ≤ 100) ∧
    (∀ c c' w w' : Nat, c ≤ c' → w ≤ w' →
        validationScore c' w' ≤ validationScore c w) ∧
    (∀ results extra : List VResult,
        validationScore (countIssues (results ++ extra)).1
            (countIssues (results ++ extra)).2 ≤
          validationScore (countIssues results).1 (countIssues results).2) ∧
    validationScore (countIssues allValidationResults).1
        (countIssues allValidationResults).2 = 80 := by
  refine ⟨countIssues_eq_countP, ?_, ?_, ?_, by decide⟩
  · intro critical warnings
    constructor
    · exact le_max_left 0 _
    · apply max_le (by norm_num)
      have h1 := Int.natCast_nonneg critical
      have h2 := Int.natCast_nonneg warnings
      omega
  · intro c c' w w' hc hw
    exact validationScore_mono hc hw
  · intro results extra
    rw [countIssues_eq_countP, countIssues_eq_countP, List.countP_append,
      List.countP_append]
    exact validationScore_mono (Nat.le_add_right _ _) (Nat.le_add_right _ _)

/-- Witness for C6: the monotonicity part applied at a concrete increase
from (0 errors, 0 warnings) to (1 error, 2 warnings). -/
theorem c6_validation_score_witness :
    (0 : Nat) ≤ 1 ∧ (0 : Nat) ≤ 2 ∧ validationScore 1 2 ≤ validationScore 0 0 :=
  ⟨by decide, by decide,
    c6_validation_score_formula.2.2.1 0 1 0 2 (by decide) (by decide)⟩

/-- C2: the export branch chosen for format `xml` does not produce XML — for
every form state its content is byte-identical to the JSON export
(`JSON.stringify(data, null, 2)`), starting with `{` (char 123), merely
shipped under an `.xml` filename and `application/xml` mime type. -/
theorem c2_xml_export_emits_json_text (fs : FormState) :
    (downloadExport fs "xml").content = toJSON (collectTemplateData fs) ∧
    (downloadExport fs "xml").content = (downloadExport fs "json").content ∧
    (downloadExport fs "xml").filename =
      exportBaseName (collectTemplateData fs) ++ ".xml" ∧
    (downloadExport fs "xml").content.data.head? = some (Char.ofNat 123) :=
  ⟨rfl, rfl, rfl, rfl⟩

/-- C8: `saveTemplate` does store the `PumpA` record (and the spec-modelled
find would return exactly it), but the code's `filterSavedConfigs` — the
only search over saved configurations — only logs and yields no record
sequence at all, for every store content and search term. -/
theorem c8_saved_config_search_is_stub :
    (saveTemplate [] pumpAForm 0).savedConfigs.map SavedConfig.name = ["PumpA"] ∧
    specStoreFind (saveTemplate [] pumpAForm 0).savedConfigs "PumpA" =
      (saveTemplate [] pumpAForm 0).savedConfigs ∧
    (∀ (configs : List SavedConfig) (searchTerm : String),
        filterSavedConfigs configs searchTerm = none) :=
  ⟨by decide, by decide, fun _ _ => rfl⟩

/-- C3 (amended): with a non-empty collected name and attribute list,
`saveTemplate` prepends a record whose id is `template-<now>`; that id is
unique among the saved records *provided* no existing record was generated
at the same `Date.now()` value; the function itself returns `undefined`,
not the id. -/
theorem c3_save_prepends_clock_id
    (configs : List SavedConfig) (fs : FormState) (now : Nat)
    (hname : (collectTemplateData fs).name ≠ "")
    (hattrs : (collectTemplateData fs).attributes ≠ [])
    (hfresh : ("template-" ++ toString now) ∉ configs.map SavedConfig.id)
    (hnodup : (configs.map SavedConfig.id).Nodup) :
    ∃ nc : SavedConfig,
      (saveTemplate configs fs now).savedConfigs = nc :: configs ∧
      nc.id = "template-" ++ toString now ∧
      nc.name = (collectTemplateData fs).name ∧
      nc.category = (collectTemplateData fs).category ∧
      nc.description = (collectTemplateData fs).description ∧
      nc.attributes = (collectTemplateData fs).attributes.length ∧
      ((saveTemplate configs fs now).savedConfigs.map SavedConfig.id).Nodup ∧
      (saveTemplate configs fs now).ret = none := by
  have hlen : ¬((collectTemplateData fs).attributes.length = 0) := by
    intro h
    exact hattrs (List.length_eq_zero.mp h)
  refine ⟨⟨"template-" ++ toString now, (collectTemplateData fs).name,
    (collectTemplateData fs).category, (collectTemplateData fs).description,
    (collectTemplateData fs).attributes.length, now,
    (jsonCompactList (collectTemplateData fs)).length⟩, ?_, rfl, rfl, rfl, rfl, rfl, ?_, ?_⟩
  · simp [saveTemplate, hname, hlen]
  · simp only [saveTemplate]
    rw [if_neg hname, if_neg hlen]
    simpa using List.nodup_cons.mpr ⟨hfresh, hnodup⟩
  · simp [saveTemplate, hname, hlen]

/-- Witness for C3 (amended): saving `PumpA` at clock 7 over a store whose
only id is `template-1`. -/
theorem c3_save_prepends_clock_id_witness :
    ((collectTemplateData pumpAForm).name ≠ "" ∧
      (collectTemplateData pumpAForm).attributes ≠ [] ∧
      ("template-" ++ toString 7) ∉ [sampleConfig].map SavedConfig.id ∧
      ([sampleConfig].map SavedConfig.id).Nodup) ∧
    (∃ nc : SavedConfig,
      (saveTemplate [sampleConfig] pumpAForm 7).savedConfigs = nc :: [sampleConfig] ∧
      nc.id = "template-" ++ toString 7 ∧
      nc.name = (collectTemplateData pumpAForm).name ∧
      nc.category = (collectTemplateData pumpAForm).category ∧
      nc.description = (collectTemplateData pumpAForm).description ∧
      nc.attributes = (collectTemplateData pumpAForm).attributes.length ∧
      ((saveTemplate [sampleConfig] pumpAForm 7).savedConfigs.map SavedConfig.id).Nodup ∧
      (saveTemplate [sampleConfig] pumpAForm 7).ret = none) :=
  ⟨⟨by decide, by decide, by decide, by decide⟩,
    c3_save_prepends_clock_id [sampleConfig] pumpAForm 7
      (by decide) (by decide) (by decide) (by decide)⟩

/-- Counterexample for C3 as stated: saving valid data at clock value 5 over
a store already holding a record with id `template-5` produces duplicate
ids (the generated id is *not* unique among all saved records), and the
call returns `undefined`, not the generated id. -/
theorem c3_save_unique_id_counterexample :
    (collectTemplateData pumpAForm).name ≠ "" ∧
    (collectTemplateData pumpAForm).attributes ≠ [] ∧
    ¬(((saveTemplate [dupConfig] pumpAForm 5).savedConfigs.map SavedConfig.id).Nodup) ∧
    (saveTemplate [dupConfig] pumpAForm 5).ret = none := by
  decide

theorem countLines_append (s t : String) :
    countLines (s ++ t) = countLines s + countLines t := by
  unfold countLines
  rw [String.data_append, List.count_append]

theorem csv_foldl_count (attrs : List Attribute) :
    ∀ acc : String,
      countLines (attrs.foldl (fun acc a => acc ++ csvRow a) acc) =
        countLines acc + (attrs.map (fun a => countLines (csvRow a))).sum := by
  induction attrs with
  | nil => intro acc; simp
  | cons a as ih =>
    intro acc
    simp only [List.foldl_cons, List.map_cons, List.sum_cons]
    rw [ih, countLines_append]
    omega

theorem csvRow_one_line (a : Attribute)
    (h1 : '\n' ∉ a.name.data) (h2 : '\n' ∉ a.type.data)
    (h3 : '\n' ∉ a.description.data) :
    countLines (csvRow a) = 1 := by
  unfold csvRow
  simp only [countLines_append]
  unfold countLines
  rw [List.count_eq_zero.mpr h1, List.count_eq_zero.mpr h2,
    List.count_eq_zero.mpr h3]
  decide

theorem sum_map_ones (l : List Attribute)
    (h : ∀ a ∈ l, countLines (csvRow a) = 1) :
    (l.map (fun a => countLines (csvRow a))).sum = l.length := by
  induction l with
  | nil => rfl
  | cons a as ih =>
    simp only [List.map_cons, List.sum_cons, List.length_cons]
    rw [h a (List.mem_cons_self a as), ih (fun b hb => h b (List.mem_cons_of_mem a hb))]
    omega

/-- C5 (amended): the CSV export is the header plus one row per attribute —
`n+1` newline-terminated lines — *provided* no attribute field contains a
newline; fields are wrapped in double quotes but embedded double quotes are
**not** escaped; the record's own name/category/description are not encoded
(the output depends only on the attribute list). -/
theorem c5_csv_shape_amended (td : TemplateData)
    (hne : td.attributes ≠ [])
    (hnl : ∀ a ∈ td.attributes,
      '\n' ∉ a.name.data ∧ '\n' ∉ a.type.data ∧ '\n' ∉ a.description.data) :
    countLines (csvContent td) = td.attributes.length + 1 ∧
    (∀ td' : TemplateData, td'.attributes = td.attributes →
      csvContent td' = csvContent td) := by
  constructor
  · unfold csvContent
    rw [csv_foldl_count]
    rw [sum_map_ones td.attributes
      (fun a ha => csvRow_one_line a (hnl a ha).1 (hnl a ha).2.1 (hnl a ha).2.2)]
    have hh : countLines "Name,Type,Description\n" = 1 := by decide
    omega
  · intro td' h
    unfold csvContent
    rw [h]

/-- Witness for C5 (amended): the `PumpA` record with one newline-free
attribute exports as exactly 2 lines. -/
theorem c5_csv_shape_witness :
    (pumpARecord.attributes ≠ [] ∧
      ∀ a ∈ pumpARecord.attributes,
        '\n' ∉ a.name.data ∧ '\n' ∉ a.type.data ∧ '\n' ∉ a.description.data) ∧
    (countLines (csvContent pumpARecord) = pumpARecord.attributes.length + 1 ∧
      (∀ td' : TemplateData, td'.attributes = pumpARecord.attributes →
        csvContent td' = csvContent pumpARecord)) :=
  ⟨⟨by decide, by decide⟩,
    c5_csv_shape_amended pumpARecord (by decide) (by decide)⟩

/-- Counterexample for C5 as stated: an attribute description containing a
newline yields 3 lines instead of `1+1`, and an attribute name containing a
double quote is emitted raw — the output differs from the properly
double-quote-escaped CSV the claim describes. -/
theorem c5_csv_counterexample :
    countLines (csvContent newlineRecord) = 3 ∧
    newlineRecord.attributes.length + 1 = 2 ∧
    csvContent quoteRecord ≠ specToCSV quoteRecord := by
  decide

/-- C7: with no search term the reference view shows the whole 31-entry
catalog in declaration order; a search returns exactly the entries whose
name, description or category contains the term case-insensitively; in
particular searching `digital` returns exactly the six digital-type
entries. -/
theorem c7_catalog_filtering :
    displayFilteredData "all" "" = allData ∧
    allData.length = 31 ∧
    displayFilteredData "all" "digital" =
      allData.filter (fun e => e.type = "digital") ∧
    (∀ searchTerm : String, searchTerm ≠ "" →
      ∀ e : RefEntry,
        e ∈ displayFilteredData "all" searchTerm ↔
          e ∈ allData ∧ matchesSearch e searchTerm = true) := by
  refine ⟨by decide, by decide, by decide, ?_⟩
  intro searchTerm hterm e
  unfold displayFilteredData getReferenceDataByFilter
  rw [if_pos rfl, if_neg hterm]
  exact List.mem_filter

/-- Witness for C7: the search-characterization part instantiated at the
term `digital` and the `DI` catalog entry. -/
theorem c7_catalog_filtering_witness :
    diEntry ∈ displayFilteredData "all" "digital" ↔
      diEntry ∈ allData ∧ matchesSearch diEntry "digital" = true :=
  c7_catalog_filtering.2.2.2 "digital" (by decide) diEntry

theorem parseLit_append (p : List Char) :
    ∀ l : List Char, parseLit p (p ++ l) = some l := by
  induction p with
  | nil => intro l; rfl
  | cons c cs ih =>
    intro l
    simp [parseLit, ih]

theorem hexVal_hexDigitChar_fin :
    ∀ d : Fin 16, hexVal (hexDigitChar d.val) = some d.val := by
  decide

theorem hexVal_hexDigitChar (d : Nat) (h : d < 16) :
    hexVal (hexDigitChar d) = some d :=
  hexVal_hexDigitChar_fin ⟨d, h⟩

theorem psb_step (c : Char) (t : List Char) :
    parseStringBody (escapeChar c ++ t) =
      (parseStringBody t).map (fun pr => (c :: pr.1, pr.2)) := by
  unfold escapeChar
  split_ifs with h1 h2 h3 h4 h5 h6 h7 h8
  · subst h1
    show parseStringBody ('\\' :: '\"' :: t) = _
    rw [parseStringBody.eq_def]
    simp +decide [simpleEscape]
  · subst h2
    show parseStringBody ('\\' :: '\\' :: t) = _
    rw [parseStringBody.eq_def]
    simp +decide [simpleEscape]
  · subst h3
    show parseStringBody ('\\' :: 'b' :: t) = _
    rw [parseStringBody.eq_def]
    simp +decide [simpleEscape]
  · subst h4
    show parseStringBody ('\\' :: 'f' :: t) = _
    rw [parseStringBody.eq_def]
    simp +decide [simpleEscape]
  · subst h5
    show parseStringBody ('\\' :: 'n' :: t) = _
    rw [parseStringBody.eq_def]
    simp +decide [simpleEscape]
  · subst h6
    show parseStringBody ('\\' :: 'r' :: t) = _
    rw [parseStringBody.eq_def]
    simp +decide [simpleEscape]
  · subst h7
    show parseStringBody ('\\' :: 't' :: t) = _
    rw [parseStringBody.eq_def]
    simp +decide [simpleEscape]
  · show parseStringBody ('\\' :: 'u' :: '0' :: '0' ::
        hexDigitChar (c.toNat / 16) :: hexDigitChar (c.toNat % 16) :: t) = _
    have hd3 : hexVal (hexDigitChar (c.toNat / 16)) = some (c.toNat / 16) :=
      hexVal_hexDigitChar _ (by omega)
    have hd4 : hexVal (hexDigitChar (c.toNat % 16)) = some (c.toNat % 16) :=
      hexVal_hexDigitChar _ (Nat.mod_lt _ (by norm_num))
    have h0 : hexVal '0' = some 0 := by decide
    rw [parseStringBody.eq_def]
    simp +decide [h0, hd3, hd4]
    rw [show c.toNat / 16 * 16 + c.toNat % 16 = c.toNat from by omega,
      Char.ofNat_toNat]
  · show parseStringBody (c :: t) = _
    rw [parseStringBody.eq_def]
    simp [h1, h2]

theorem parseStringBody_escape (s : List Char) :
    ∀ rest : List Char,
      parseStringBody (escapeList s ++ '\"' :: rest) = some (s, rest) := by
  induction s with
  | nil =>
    intro rest
    rw [show escapeList [] = [] from rfl, List.nil_append, parseStringBody.eq_def]
    simp
  | cons c cs ih =>
    intro rest
    rw [show escapeList (c :: cs) = escapeChar c ++ escapeList cs from rfl,
      List.append_assoc, psb_step, ih]
    rfl

theorem parseJString_quote (s : List Char) (rest : List Char) :
    parseJString (quoteString s ++ rest) = some (s, rest) := by
  rw [show quoteString s ++ rest = '\"' :: (escapeList s ++ ('\"' :: rest)) from by
    simp [quoteString]]
  rw [show parseJString ('\"' :: (escapeList s ++ ('\"' :: rest))) =
    parseStringBody (escapeList s ++ ('\"' :: rest)) from rfl]
  exact parseStringBody_escape s rest

theorem parseAttrItem_append (a : Attribute) (rest : List Char) :
    parseAttrItem (attrItemJSON a ++ rest) = some (a, rest) := by
  unfold parseAttrItem attrItemJSON
  simp only [List.append_assoc, parseLit_append, parseJString_quote,
    Option.some_bind, Option.map_some']

theorem parseAttrItems_append (as : List Attribute) :
    ∀ (a : Attribute) (rest : List Char) (fuel : Nat),
      as.length < fuel →
      parseAttrItems fuel
          (attrItemsJSON a as ++ ('\n' :: ' ' :: ' ' :: ']' :: rest)) =
        some (a :: as, rest) := by
  induction as with
  | nil =>
    intro a rest fuel hf
    cases fuel with
    | zero => omega
    | succ f =>
      rw [show attrItemsJSON a [] = attrItemJSON a from rfl]
      simp +decide [parseAttrItems, parseAttrItem_append]
  | cons b bs ih =>
    intro a rest fuel hf
    cases fuel with
    | zero => simp at hf
    | succ f =>
      rw [show attrItemsJSON a (b :: bs) =
        attrItemJSON a ++ (',' :: '\n' :: attrItemsJSON b bs) from rfl,
        List.append_assoc]
      have hbs : bs.length < f := by
        simp only [List.length_cons] at hf
        omega
      simp +decide [parseAttrItems, parseAttrItem_append, ih b rest f hbs]

theorem attrItemsJSON_length_ge (as : List Attribute) :
    ∀ a : Attribute, as.length ≤ (attrItemsJSON a as).length := by
  induction as with
  | nil => intro a; exact Nat.zero_le _
  | cons b bs ih =>
    intro a
    rw [show attrItemsJSON a (b :: bs) =
      attrItemJSON a ++ (',' :: '\n' :: attrItemsJSON b bs) from rfl]
    have := ih b
    simp only [List.length_append, List.length_cons]
    omega

theorem parseAttrs_append (attrs : List Attribute) (rest : List Char) :
    parseAttrs (attrsJSON attrs ++ rest) = some (attrs, rest) := by
  cases attrs with
  | nil => rfl
  | cons a as =>
    rw [show attrsJSON (a :: as) ++ rest =
      '[' :: '\n' ::
        (attrItemsJSON a as ++ ('\n' :: ' ' :: ' ' :: ']' :: rest)) from by
      simp [attrsJSON]]
    rw [show parseAttrs ('[' :: '\n' ::
        (attrItemsJSON a as ++ ('\n' :: ' ' :: ' ' :: ']' :: rest))) =
      parseAttrItems
        ((attrItemsJSON a as ++ ('\n' :: ' ' :: ' ' :: ']' :: rest)).length + 1)
        (attrItemsJSON a as ++ ('\n' :: ' ' :: ' ' :: ']' :: rest)) from rfl]
    apply parseAttrItems_append
    have := attrItemsJSON_length_ge as a
    simp only [List.length_append, List.length_cons]
    omega

/-- C4: parsing the JSON export of any structural record yields the record
back: `fromJSON (toJSON r) = some r` (round-trip identity on the structural
fields `name`, `category`, `description`, `attributes`). -/
theorem c4_json_export_roundtrip (td : TemplateData) :
    fromJSON (toJSON td) = some td := by
  show fromJSONList (toJSONList td) = some td
  unfold fromJSONList toJSONList
  simp only [List.append_assoc, parseLit_append, parseJString_quote,
    Option.some_bind, parseAttrs_append]
  simp

end Aveva
